import Mathlib

/-!
Verification of the kaelion-experiments scripts.

Each Python analysis function is embedded as a Lean definition over the
real numbers: numpy expressions become real arithmetic, `np.clip` becomes
`min`/`max`, and the fallible `scipy.optimize.curve_fit` call is modelled
as an `Except`-valued outcome that each fitting routine pattern-matches on.
-/

namespace Kaelion

noncomputable section

/-- numpy `np.clip(x, lo, hi)` : clamp `x` into the interval `[lo, hi]`. -/
def npclip (x lo hi : ℝ) : ℝ := min (max x lo) hi

/-! ## src/quantum_circuits/experiment1_otoc.py — class DataAnalysis -/

/-- Source: `decay_model` inside `DataAnalysis.fit_otoc_decay`:
`A * np.exp(-lambda_L * t) + B`. -/
def decay_model (t A lambda_L B : ℝ) : ℝ := A * Real.exp (-lambda_L * t) + B

/-- Source: `DataAnalysis.fit_otoc_decay`: on a successful `curve_fit` it returns
`(popt[1], sqrt(pcov[1][1]))`; on any exception it returns `(None, None)`.
The `curve_fit` outcome is modelled as an `Except` value carrying the
optimal parameters `popt = (A, lambda_L, B)` and the covariance matrix. -/
def fit_otoc_decay (fitResult : Except String ((ℝ × ℝ × ℝ) × (ℕ → ℕ → ℝ))) :
    Option ℝ × Option ℝ :=
  match fitResult with
  | Except.ok (popt, pcov) => (some popt.2.1, some (Real.sqrt (pcov 1 1)))
  | Except.error _ => (none, none)

/-- Source: `DataAnalysis.compute_kaelion_lambda`:
`np.clip(lambda_L / (2 * np.pi * temperature), 0, 1)`. -/
def compute_kaelion_lambda (lambda_L temperature : ℝ) : ℝ :=
  npclip (lambda_L / (2 * Real.pi * temperature)) 0 1

/-- Source: `DataAnalysis.compute_alpha`: `-0.5 - lambda_kaelion`. -/
def compute_alpha (lambda_kaelion : ℝ) : ℝ := -0.5 - lambda_kaelion

/-! ## src/bec_analog/experiment2_bec.py — class BECAnalogBlackHole -/

/-- The constructor state of `BECAnalogBlackHole(c_sound, v_flow)`. -/
structure BECAnalogBlackHole where
  c_sound : ℝ
  v_flow : ℝ

/-- Source: `self.has_horizon = v_flow > c_sound`. -/
def BECAnalogBlackHole.has_horizon (b : BECAnalogBlackHole) : Prop :=
  b.v_flow > b.c_sound

/-- Source: `BECAnalogBlackHole.surface_gravity`: returns `0` with no horizon,
otherwise `(v - c) / xi` with healing length `xi = 0.1`. -/
def BECAnalogBlackHole.surface_gravity (b : BECAnalogBlackHole) : ℝ :=
  if b.v_flow > b.c_sound then (b.v_flow - b.c_sound) / 0.1 else 0

/-- Source: `BECAnalogBlackHole.hawking_temperature`: `kappa / (2 * np.pi)`. -/
def BECAnalogBlackHole.hawking_temperature (b : BECAnalogBlackHole) : ℝ :=
  b.surface_gravity / (2 * Real.pi)

/-- Source: `BECAnalogBlackHole.horizon_perimeter(width)`: in quasi-1D the "area"
is just the transverse width. -/
def BECAnalogBlackHole.horizon_perimeter (b : BECAnalogBlackHole) (width : ℝ) : ℝ :=
  width

/-- Source: `BECAnalogBlackHole.entropy_kaelion(lambda_param, width)`:
`A/4 + alpha * np.log(A)` with `A = horizon_perimeter(width)` and
`alpha = -0.5 - lambda_param`. -/
def BECAnalogBlackHole.entropy_kaelion (b : BECAnalogBlackHole)
    (lambda_param width : ℝ) : ℝ :=
  let A := b.horizon_perimeter width
  let alpha := -0.5 - lambda_param
  A / 4 + alpha * Real.log A

/-! ## src/bec_analog/experiment2_bec.py — class BECDataAnalysis -/

/-- Source: `entropy_model` inside `BECDataAnalysis.fit_entropy_vs_area`:
`A/4 + alpha * np.log(A) + const`. -/
def entropy_model (A alpha const : ℝ) : ℝ := A / 4 + alpha * Real.log A + const

/-- Source: `BECDataAnalysis.fit_entropy_vs_area`: on success returns
`(popt[0], sqrt(pcov[0][0]))`, on any exception `(None, None)`. -/
def fit_entropy_vs_area (fitResult : Except String ((ℝ × ℝ) × (ℕ → ℕ → ℝ))) :
    Option ℝ × Option ℝ :=
  match fitResult with
  | Except.ok (popt, pcov) => (some popt.1, some (Real.sqrt (pcov 0 0)))
  | Except.error _ => (none, none)

/-- Source: `BECDataAnalysis.extract_lambda`: `-0.5 - alpha`. -/
def extract_lambda (alpha : ℝ) : ℝ := -0.5 - alpha

/-! ## src/quantum_circuits/ibm_quantum_otoc/code/code1_simulador_ideal.py
and code3_repeticiones.py / code5_investigar_variabilidad.py analysis -/

/-- Source: `def decay(t, A, lam, B): return A * np.exp(-lam * t) + B`. -/
def decay (t A lam B : ℝ) : ℝ := A * Real.exp (-lam * t) + B

/-- Source: `mss = 2 * np.pi * 0.5`. -/
def mss : ℝ := 2 * Real.pi * 0.5

/-- The per-fit lambda recorded by code1's `analysis_ideal` and code3's
`all_lambdas` on a successful fit: `lam_K = np.clip(popt[1]/mss, 0, 1)`. -/
def analysisLambda (lam_fit : ℝ) : ℝ := npclip (lam_fit / mss) 0 1

/-- code5 `run_and_extract_lambda` fit stage: on success
`lam_K = np.clip(popt[1]/mss, 0, 1)`, on any exception `lam_K = -1`. -/
def run_and_extract_lambda (fitResult : Except String (ℝ × ℝ × ℝ)) : ℝ :=
  match fitResult with
  | Except.ok popt => npclip (popt.2.1 / mss) 0 1
  | Except.error _ => -1

/-! ## src/astrophysical/experiment3_astro.py -/

namespace Constants

/-- Source: `G = 6.674e-11`. -/
def G : ℝ := 6.674e-11

/-- Source: `c = 3e8`. -/
def c : ℝ := 3e8

/-- Source: `hbar = 1.055e-34`. -/
def hbar : ℝ := 1.055e-34

/-- Source: `M_sun = 1.989e30`. -/
def M_sun : ℝ := 1.989e30

/-- Source: `l_P = np.sqrt(hbar * G / c**3)`. -/
def l_P : ℝ := Real.sqrt (hbar * G / c ^ 3)

end Constants

/-- Source: `schwarzschild_radius(M) = 2 * G * M / c**2`. -/
def schwarzschild_radius (M : ℝ) : ℝ :=
  2 * Constants.G * M / Constants.c ^ 2

/-- Source: `planck_suppression(M) = (l_P / r_s)**2`. -/
def planck_suppression (M : ℝ) : ℝ :=
  (Constants.l_P / schwarzschild_radius M) ^ 2

/-- The `omega_coeffs` table lookup of `qnm_frequency_GR`, including the
approximation branch for modes outside the table. -/
def qnm_coeffs (l n : ℤ) : ℝ × ℝ :=
  if l = 2 ∧ n = 0 then (0.3737, -0.0890)
  else if l = 2 ∧ n = 1 then (0.3467, -0.2739)
  else if l = 3 ∧ n = 0 then (0.5994, -0.0927)
  else (0.37 + 0.06 * ((l : ℝ) - 2), -0.09 - 0.05 * (n : ℝ))

/-- Source: `qnm_frequency_GR(M, l, n) = complex(real * scale, imag * scale)` with
`scale = c**3 / (G * M)`; the complex value is modelled as a real pair. -/
def qnm_frequency_GR (M : ℝ) (l n : ℤ) : ℝ × ℝ :=
  let rc := qnm_coeffs l n
  let scale := Constants.c ^ 3 / (Constants.G * M)
  (rc.1 * scale, rc.2 * scale)

/-- Source: `qnm_frequency_kaelion(M, lambda_K, l, n) = omega_GR * (1 + correction)`
with `correction = lambda_K * planck_suppression(M) * f_ln` and
`f_ln = 1.0 + 0.1 * l + 0.5 * n`. -/
def qnm_frequency_kaelion (M lambda_K : ℝ) (l n : ℤ) : ℝ × ℝ :=
  let omega_GR := qnm_frequency_GR M l n
  let suppression := planck_suppression M
  let f_ln : ℝ := 1.0 + 0.1 * (l : ℝ) + 0.5 * (n : ℝ)
  let correction := lambda_K * suppression * f_ln
  (omega_GR.1 * (1 + correction), omega_GR.2 * (1 + correction))

/-- Source: `shadow_radius_GR(M) = 3 * np.sqrt(3) * G * M / c**2`. -/
def shadow_radius_GR (M : ℝ) : ℝ :=
  3 * Real.sqrt 3 * Constants.G * M / Constants.c ^ 2

/-- Source: `shadow_radius_kaelion(M, lambda_K) = R_GR * (1 + lambda_K * suppression)`. -/
def shadow_radius_kaelion (M lambda_K : ℝ) : ℝ :=
  shadow_radius_GR M * (1 + lambda_K * planck_suppression M)

/-! ## Quantum circuits (ibm_quantum_otoc scripts)

A qiskit circuit is embedded as the list of its gates in application
order (measurements excluded).  A gate is a constructor carrying its real
angle parameters and target qubit indices.  `np.random.uniform` draws are
modelled as reads from a pure stream `ℕ → ℝ` indexed by draw order; a
`np.random.seed(s)` call corresponds to restarting the stream of seed `s`
at index 0. -/

/-- The gate alphabet used by the OTOC scripts. -/
inductive Gate
  | hgate (i : ℕ)
  | xgate (i : ℕ)
  | zgate (i : ℕ)
  | tgate (i : ℕ)
  | tdgate (i : ℕ)
  | ugate (theta phi lam : ℝ) (i : ℕ)
  | cx (a b : ℕ)
  | rx (theta : ℝ) (i : ℕ)
  | rzz (theta : ℝ) (a b : ℕ)

/-- Gate-wise inverse, as computed by qiskit's `.inverse()`:
`u(θ,φ,λ)⁻¹ = u(-θ,-λ,-φ)`, `t⁻¹ = tdg`, rotations negate their angle,
and `h`, `x`, `z`, `cx` are self-inverse. -/
def ginv : Gate → Gate
  | Gate.hgate i => Gate.hgate i
  | Gate.xgate i => Gate.xgate i
  | Gate.zgate i => Gate.zgate i
  | Gate.tgate i => Gate.tdgate i
  | Gate.tdgate i => Gate.tgate i
  | Gate.ugate theta phi lam i => Gate.ugate (-theta) (-lam) (-phi) i
  | Gate.cx a b => Gate.cx a b
  | Gate.rx theta i => Gate.rx (-theta) i
  | Gate.rzz theta a b => Gate.rzz (-theta) a b

/-- The set of qubit indices a gate acts on. -/
def gateQubits : Gate → Finset ℕ
  | Gate.hgate i => {i}
  | Gate.xgate i => {i}
  | Gate.zgate i => {i}
  | Gate.tgate i => {i}
  | Gate.tdgate i => {i}
  | Gate.ugate _ _ _ i => {i}
  | Gate.cx a b => {a, b}
  | Gate.rx _ i => {i}
  | Gate.rzz _ a b => {a, b}

/-- qiskit `QuantumCircuit.inverse()` on a gate list: reverse the order and
invert each gate. -/
def linv (l : List Gate) : List Gate := (l.map ginv).reverse

/-- Interpretation of a gate list in a group `G` (e.g. the unitary group of
the circuit's Hilbert space) through a gate assignment `phi`: gates apply
left to right, so the circuit element is the product of the interpretations
in reverse list order. -/
def evalC {G : Type} [Group G] (phi : Gate → G) (l : List Gate) : G :=
  ((l.map phi).reverse).prod

/-- The three `ctype` values of `create_otoc`. -/
inductive CType
  | chaotic
  | integrable
  | intermediate

/-- One depth-layer of the chaotic branch of `create_otoc`: a `u` gate with
two fresh uniform draws on every qubit, a CNOT chain, and the wrap-around
CNOT.  `base` is the stream index of the first draw of the layer. -/
def chaoticLayer (n : ℕ) (rand : ℕ → ℝ) (base : ℕ) : List Gate :=
  ((List.range n).map fun i =>
      Gate.ugate (rand (base + 2 * i)) (rand (base + 2 * i + 1)) 0 i) ++
    ((List.range (n - 1)).map fun i => Gate.cx i (i + 1)) ++
    [Gate.cx (n - 1) 0]

/-- One depth-layer of the integrable branch: Hadamards then the CNOT chain. -/
def integrableLayer (n : ℕ) : List Gate :=
  ((List.range n).map Gate.hgate) ++
    ((List.range (n - 1)).map fun i => Gate.cx i (i + 1))

/-- One depth-layer of the intermediate branch: `h; t` per qubit then the
CNOT chain. -/
def intermediateLayer (n : ℕ) : List Gate :=
  ((List.range n).flatMap fun i => [Gate.hgate i, Gate.tgate i]) ++
    ((List.range (n - 1)).map fun i => Gate.cx i (i + 1))

/-- The forward evolution loop of `create_otoc` (`for d in range(depth)`),
which is also the loop rebuilding `qc_inv` after the reseed: the chaotic
branch consumes `2 * n` uniform draws per layer. -/
def evolutionBlock (n depth : ℕ) (ct : CType) (rand : ℕ → ℝ) : List Gate :=
  (List.range depth).flatMap fun d =>
    match ct with
    | CType.chaotic => chaoticLayer n rand (d * (2 * n))
    | CType.integrable => integrableLayer n
    | CType.intermediate => intermediateLayer n

/-- Source: `create_otoc(n, depth, ctype, seed)` from code1/code2/code3/code4
(measurements omitted): prepare `h q0; x q0`, forward evolution, `z q(n-1)`,
reseed with the same `seed + depth * 100` and rebuild `qc_inv` by the same
loop, compose `qc_inv.inverse()`, then `x q0`.  `stream s` is the draw
stream produced by `np.random.seed(s)`. -/
def create_otoc (n depth : ℕ) (ct : CType) (seed : ℕ) (stream : ℕ → ℕ → ℝ) :
    List Gate :=
  let rand := stream (seed + depth * 100)
  let qcU := evolutionBlock n depth ct rand
  let qc_inv := evolutionBlock n depth ct rand
  [Gate.hgate 0, Gate.xgate 0] ++ qcU ++ [Gate.zgate (n - 1)] ++
    linv qc_inv ++ [Gate.xgate 0]

/-- One forward layer of `create_kicked_ising_otoc`: `rx(2h)` kicks on all
qubits, `rzz(2J)` on neighbouring pairs, then the cyclic `rzz(2J)` link. -/
def kickedForwardLayer (n : ℕ) (J h : ℝ) : List Gate :=
  ((List.range n).map fun i => Gate.rx (2 * h) i) ++
    ((List.range (n - 1)).map fun i => Gate.rzz (2 * J) i (i + 1)) ++
    [Gate.rzz (2 * J) (n - 1) 0]

/-- One backward layer of `create_kicked_ising_otoc`: the cyclic link with
negated angle, the neighbour `rzz` gates with negated angles in descending
order (`for i in range(n-2, -1, -1)`), then the negated `rx` kicks in
ascending order. -/
def kickedBackwardLayer (n : ℕ) (J h : ℝ) : List Gate :=
  [Gate.rzz (-(2 * J)) (n - 1) 0] ++
    (((List.range (n - 1)).reverse).map fun i => Gate.rzz (-(2 * J)) i (i + 1)) ++
    ((List.range n).map fun i => Gate.rx (-(2 * h)) i)

/-- The forward evolution block of `create_kicked_ising_otoc`
(`for _ in range(depth)`). -/
def kickedForwardBlock (n depth : ℕ) (J h : ℝ) : List Gate :=
  (List.range depth).flatMap fun _ => kickedForwardLayer n J h

/-- The backward evolution block of `create_kicked_ising_otoc`. -/
def kickedBackwardBlock (n depth : ℕ) (J h : ℝ) : List Gate :=
  (List.range depth).flatMap fun _ => kickedBackwardLayer n J h

/-- Source: `create_kicked_ising_otoc(n, depth, J, h)` from code6_kicked_ising
(measurements omitted). -/
def create_kicked_ising_otoc (n depth : ℕ) (J h : ℝ) : List Gate :=
  [Gate.hgate 0, Gate.xgate 0] ++ kickedForwardBlock n depth J h ++
    [Gate.zgate (n - 1)] ++ kickedBackwardBlock n depth J h ++ [Gate.xgate 0]

/-- The per-instruction body of the `amplify_noise` copy loop: every gate
is copied, and a `cx` is additionally followed by `factor - 1` pairs of
the same `cx` (each pair composing to the identity). -/
def amplifyGate (factor : ℕ) : Gate → List Gate
  | Gate.cx a b =>
      Gate.cx a b ::
        ((List.range (factor - 1)).flatMap fun _ => [Gate.cx a b, Gate.cx a b])
  | g => [g]

/-- Source: `amplify_noise(qc, factor)` from code4_zne: with `factor == 1` the
circuit is returned unchanged; otherwise the copy loop runs over every
instruction. -/
def amplify_noise (l : List Gate) (factor : ℕ) : List Gate :=
  if factor = 1 then l else l.flatMap (amplifyGate factor)

/-! ## Script-level effects and data provenance

For the frame claims, each repository script is embedded as the list of
its externally visible effects, read off the source in program order:
console prints are collapsed to a single marker, and the disk writes are
the `plt.savefig` calls and the qiskit
`QiskitRuntimeService.save_account(..., overwrite=True)` call, which
persists the API token to the user's account-credentials file. -/

/-- The scripts of the repository (module-level code that runs on import). -/
inductive Script
  | experiment1_otoc
  | experiment2_bec
  | experiment3_astro
  | code1_simulador_ideal
  | code2_multi_backend
  | code3_repeticiones
  | code4_zne
  | code5_investigar_variabilidad
  | code6_kicked_ising
  | otoc_v1_basic
  | otoc_v2_calibrated
  | generate_figures
  | v3_experiment2_bec
  | v3_experiment3_astro
  | v3_code6_kicked_ising
  | v3_code9_syk_simplificado
  | v3_code10_floquet
deriving DecidableEq

/-- Externally visible effects of one script run. -/
inductive Effect
  | printText
  | showPlot
  | saveImage (name : String)
  | saveAccountFile
  | submitCloudJob
deriving DecidableEq

/-- The effect trace of each script, read off its source: prints, cloud
job submissions, `plt.savefig` targets, `plt.show`, and `save_account`. -/
def scriptEffects : Script → List Effect
  | Script.experiment1_otoc =>
      [Effect.printText, Effect.saveImage "Experiment1_QuantumCircuits.png"]
  | Script.experiment2_bec =>
      [Effect.printText, Effect.saveImage "Experiment2_BEC.png"]
  | Script.experiment3_astro =>
      [Effect.printText, Effect.saveImage "astro_suppression.png", Effect.showPlot]
  | Script.code1_simulador_ideal => [Effect.printText]
  | Script.code2_multi_backend =>
      [Effect.printText, Effect.saveAccountFile, Effect.submitCloudJob]
  | Script.code3_repeticiones =>
      [Effect.printText, Effect.saveAccountFile, Effect.submitCloudJob]
  | Script.code4_zne =>
      [Effect.printText, Effect.saveAccountFile, Effect.submitCloudJob]
  | Script.code5_investigar_variabilidad =>
      [Effect.printText, Effect.saveAccountFile, Effect.submitCloudJob]
  | Script.code6_kicked_ising =>
      [Effect.printText, Effect.saveAccountFile, Effect.submitCloudJob]
  | Script.otoc_v1_basic => [Effect.printText, Effect.submitCloudJob]
  | Script.otoc_v2_calibrated =>
      [Effect.printText, Effect.saveAccountFile, Effect.submitCloudJob]
  | Script.generate_figures =>
      [Effect.printText,
       Effect.saveImage "Figure1_OTOC_Decay.png",
       Effect.saveImage "Figure1_OTOC_Decay.pdf",
       Effect.saveImage "Figure2_Lambda_Values.png",
       Effect.saveImage "Figure2_Lambda_Values.pdf",
       Effect.saveImage "Figure3_Alpha_Lambda.png",
       Effect.saveImage "Figure3_Alpha_Lambda.pdf",
       Effect.saveImage "Figure4_Transpiled_Depths.png",
       Effect.saveImage "Figure4_Transpiled_Depths.pdf",
       Effect.saveImage "Figure5_Reproducibility.png",
       Effect.saveImage "Figure5_Reproducibility.pdf"]
  | Script.v3_experiment2_bec => [Effect.printText]
  | Script.v3_experiment3_astro => [Effect.printText]
  | Script.v3_code6_kicked_ising =>
      [Effect.printText, Effect.saveAccountFile, Effect.submitCloudJob]
  | Script.v3_code9_syk_simplificado =>
      [Effect.printText, Effect.saveAccountFile, Effect.submitCloudJob]
  | Script.v3_code10_floquet =>
      [Effect.printText, Effect.saveAccountFile, Effect.submitCloudJob]

/-- Whether an effect writes persistent state to disk. -/
def persistsToDisk : Effect → Bool
  | Effect.saveImage _ => true
  | Effect.saveAccountFile => true
  | _ => false

/-- Where the numeric arrays a script fits come from, read off the source. -/
inductive DataSource
  | seededLocalRNG
  | simulatorSampling
  | cloudHardware
  | hardcodedLiterals
deriving DecidableEq

/-- The provenance of the fitted data of each script that calls
`scipy.optimize.curve_fit`; `none` for scripts that fit nothing. -/
def fitDataSource : Script → Option DataSource
  | Script.experiment1_otoc => some DataSource.seededLocalRNG
  | Script.experiment2_bec => some DataSource.seededLocalRNG
  | Script.experiment3_astro => none
  | Script.code1_simulador_ideal => some DataSource.simulatorSampling
  | Script.code2_multi_backend => some DataSource.cloudHardware
  | Script.code3_repeticiones => some DataSource.cloudHardware
  | Script.code4_zne => some DataSource.cloudHardware
  | Script.code5_investigar_variabilidad => some DataSource.cloudHardware
  | Script.code6_kicked_ising => some DataSource.cloudHardware
  | Script.otoc_v1_basic => some DataSource.cloudHardware
  | Script.otoc_v2_calibrated => some DataSource.cloudHardware
  | Script.generate_figures => some DataSource.hardcodedLiterals
  | Script.v3_experiment2_bec => none
  | Script.v3_experiment3_astro => none
  | Script.v3_code6_kicked_ising => some DataSource.cloudHardware
  | Script.v3_code9_syk_simplificado => some DataSource.cloudHardware
  | Script.v3_code10_floquet => some DataSource.cloudHardware

/-! ## Deterministic data-generation pipelines (experiment1, experiment2)

`np.random.normal` draws after `np.random.seed(s)` are modelled as a pure
stream `gauss s : ℕ → ℝ`; the pipelines below are then literal
transcriptions of the module-level data generation and fit stages. -/

/-- Source: `np.linspace(a, b, num)` at index `i`. -/
def linspace (a b : ℝ) (num : ℕ) (i : ℕ) : ℝ :=
  a + (i : ℝ) * ((b - a) / ((num : ℝ) - 1))

/-- experiment2_bec module level: `lambda_true = 0.6`. -/
def lambda_true : ℝ := 0.6

/-- experiment2_bec module level: `alpha_true = -0.5 - lambda_true`. -/
def alpha_true : ℝ := -0.5 - lambda_true

/-- experiment2_bec synthetic data:
`entropies = areas/4 + alpha_true * np.log(areas) + np.random.normal(0, 0.1, 10)`
with `areas = np.linspace(5, 50, 10)` and the normal draws coming from the
stream of the seed hard-coded as 42. -/
def bec_entropies (gauss : ℕ → ℕ → ℝ) (seed : ℕ) (i : ℕ) : ℝ :=
  linspace 5 50 10 i / 4 + alpha_true * Real.log (linspace 5 50 10 i) +
    gauss seed i

/-- The experiment2_bec data-generation and fit stages as a function of the
RNG stream, the (deterministic) fit procedure and the seed: returns the
fitted `alpha` and the extracted `lambda`. -/
def bec_run (gauss : ℕ → ℕ → ℝ) (fit : (ℕ → ℝ) → (ℕ → ℝ) → ℝ)
    (seed : ℕ) : ℝ × ℝ :=
  let entropies := bec_entropies gauss seed
  let alpha_fit := fit (linspace 5 50 10) entropies
  (alpha_fit, extract_lambda alpha_fit)

/-- experiment1_otoc `simulate_otoc(lambda_true)` data point `i`:
`np.clip(np.exp(-lambda_true * t) + np.random.normal(0, 0.05, 20), 0.01, 1.0)`
with `t = np.linspace(0, 5, 20)`. -/
def simulate_otoc (noise : ℕ → ℝ) (lambda_tr : ℝ) (i : ℕ) : ℝ :=
  npclip (Real.exp (-lambda_tr * linspace 0 5 20 i) + noise i) 0.01 1

/-- The experiment1_otoc scenario pipeline at effective temperature
`T_eff = 0.5`: simulate the OTOC decay, fit `lambda_L`, clip to the Kaelion
lambda, and derive `alpha`. -/
def otoc_run (gauss : ℕ → ℕ → ℝ) (fit : (ℕ → ℝ) → (ℕ → ℝ) → ℝ)
    (seed : ℕ) (lambda_tr : ℝ) : ℝ × ℝ × ℝ :=
  let otoc := simulate_otoc (gauss seed) lambda_tr
  let lambda_L := fit (linspace 0 5 20) otoc
  let lam_K := compute_kaelion_lambda lambda_L 0.5
  (lambda_L, lam_K, compute_alpha lam_K)

/-! ## Theorems -/

/-- Any `np.clip(x, 0, 1)` value lies in `[0, 1]`. -/
theorem npclip_unit_mem (x : ℝ) : 0 ≤ npclip x 0 1 ∧ npclip x 0 1 ≤ 1 :=
  ⟨le_min (le_max_right x 0) zero_le_one, min_le_right _ 1⟩

/-- C1: the coefficient alpha and the parameter lambda are related by the
fixed linear relation `alpha = -0.5 - lambda` everywhere it is computed:
`DataAnalysis.compute_alpha`, `BECDataAnalysis.extract_lambda` (the two
maps are mutually inverse), and the entropy formula
`BECAnalogBlackHole.entropy_kaelion(lambda, w) = w/4 + (-0.5 - lambda) * log w`
for every width `w > 0`. -/
theorem alpha_lambda_fixed_relation (lam alpha w : ℝ) (b : BECAnalogBlackHole)
    (hw : 0 < w) :
    compute_alpha lam = -0.5 - lam ∧
    extract_lambda alpha = -0.5 - alpha ∧
    extract_lambda (compute_alpha lam) = lam ∧
    compute_alpha (extract_lambda alpha) = alpha ∧
    b.entropy_kaelion lam w = w / 4 + (-0.5 - lam) * Real.log w := by
  refine ⟨rfl, rfl, ?_, ?_, ?_⟩
  · simp only [extract_lambda, compute_alpha]; ring
  · simp only [extract_lambda, compute_alpha]; ring
  · simp [BECAnalogBlackHole.entropy_kaelion, BECAnalogBlackHole.horizon_perimeter]

/-- Witness for C1 at `lam = 0.6`, `alpha = -1.1`, `w = 10`,
`b = BECAnalogBlackHole(1, 1.5)`. -/
theorem alpha_lambda_fixed_relation_witness :
    (0 : ℝ) < 10 ∧
      (compute_alpha 0.6 = -0.5 - 0.6 ∧
       extract_lambda (-1.1) = -0.5 - (-1.1) ∧
       extract_lambda (compute_alpha 0.6) = 0.6 ∧
       compute_alpha (extract_lambda (-1.1)) = -1.1 ∧
       BECAnalogBlackHole.entropy_kaelion ⟨1, 1.5⟩ 0.6 10 =
         10 / 4 + (-0.5 - 0.6) * Real.log 10) :=
  ⟨by norm_num, alpha_lambda_fixed_relation 0.6 (-1.1) 10 ⟨1, 1.5⟩ (by norm_num)⟩

/-- C2: for every Lyapunov exponent and temperature `T > 0`,
`compute_kaelion_lambda` returns `lambda_L / (2 pi T)` clipped to `[0, 1]`,
and both it and the `np.clip(popt[1]/mss, 0, 1)` value recorded by the
code1/code3 analysis pipelines lie in `[0, 1]`. -/
theorem kaelion_lambda_clip_bounds (lambda_L T lam_fit : ℝ) (hT : 0 < T) :
    compute_kaelion_lambda lambda_L T = npclip (lambda_L / (2 * Real.pi * T)) 0 1 ∧
    0 ≤ compute_kaelion_lambda lambda_L T ∧ compute_kaelion_lambda lambda_L T ≤ 1 ∧
    0 ≤ analysisLambda lam_fit ∧ analysisLambda lam_fit ≤ 1 :=
  ⟨rfl, (npclip_unit_mem _).1, (npclip_unit_mem _).2,
    (npclip_unit_mem _).1, (npclip_unit_mem _).2⟩

/-- Witness for C2 at `lambda_L = 2.5`, `T = 0.5`, `lam_fit = 0.3`. -/
theorem kaelion_lambda_clip_bounds_witness :
    (0 : ℝ) < 0.5 ∧
      (compute_kaelion_lambda 2.5 0.5 = npclip (2.5 / (2 * Real.pi * 0.5)) 0 1 ∧
       0 ≤ compute_kaelion_lambda 2.5 0.5 ∧ compute_kaelion_lambda 2.5 0.5 ≤ 1 ∧
       0 ≤ analysisLambda 0.3 ∧ analysisLambda 0.3 ≤ 1) :=
  ⟨by norm_num, kaelion_lambda_clip_bounds 2.5 0.5 0.3 (by norm_num)⟩

/-- C3: when the nonlinear least-squares fit raises any exception, the
fitting routines suppress it and return the fallback sentinel:
`fit_otoc_decay` and `fit_entropy_vs_area` return `(None, None)` and the
code5 per-run extraction sets lambda to `-1`; each routine is a total
function of the fit outcome, so no exception escapes the fit step. -/
theorem curve_fit_exception_fallback (err : String) :
    fit_otoc_decay (Except.error err) = (none, none) ∧
    fit_entropy_vs_area (Except.error err) = (none, none) ∧
    run_and_extract_lambda (Except.error err) = -1 :=
  ⟨rfl, rfl, rfl⟩

/-- C4: the models handed to the nonlinear least-squares fits are the
stated closed forms: `decay_model(t, A, lambda_L, B) = A exp(-lambda_L t) + B`
everywhere (both in experiment1 and as `decay` in code1), and
`entropy_model(A, alpha, const) = A/4 + alpha log A + const` for `A > 0`. -/
theorem fit_models_closed_form (t A lambda_L B alpha const : ℝ) (hA : 0 < A) :
    decay_model t A lambda_L B = A * Real.exp (-lambda_L * t) + B ∧
    entropy_model A alpha const = A / 4 + alpha * Real.log A + const ∧
    decay t A lambda_L B = A * Real.exp (-lambda_L * t) + B :=
  ⟨rfl, rfl, rfl⟩

/-- Witness for C4 at `t = 2`, `A = 1`, `lambda_L = 0.5`, `B = 0`,
`alpha = -1`, `const = 0`. -/
theorem fit_models_closed_form_witness :
    (0 : ℝ) < 1 ∧
      (decay_model 2 1 0.5 0 = 1 * Real.exp (-0.5 * 2) + 0 ∧
       entropy_model 1 (-1) 0 = 1 / 4 + (-1) * Real.log 1 + 0 ∧
       decay 2 1 0.5 0 = 1 * Real.exp (-0.5 * 2) + 0) :=
  ⟨by norm_num, fit_models_closed_form 2 1 0.5 0 (-1) 0 (by norm_num)⟩

/-- C5: setting the Kaelion parameter to zero reduces the corrected
astrophysical formulas to their GR counterparts: for every mass `M > 0`
and mode numbers, `qnm_frequency_kaelion(M, 0, l, n) = qnm_frequency_GR(M, l, n)`
and `shadow_radius_kaelion(M, 0) = shadow_radius_GR(M)`. -/
theorem kaelion_zero_reduces_to_GR (M : ℝ) (l n : ℤ) (hM : 0 < M) :
    qnm_frequency_kaelion M 0 l n = qnm_frequency_GR M l n ∧
    shadow_radius_kaelion M 0 = shadow_radius_GR M := by
  constructor
  · simp [qnm_frequency_kaelion]
  · simp [shadow_radius_kaelion]

/-- Witness for C5 at `M = 1`, `l = 2`, `n = 0`. -/
theorem kaelion_zero_reduces_to_GR_witness :
    (0 : ℝ) < 1 ∧
      (qnm_frequency_kaelion 1 0 2 0 = qnm_frequency_GR 1 2 0 ∧
       shadow_radius_kaelion 1 0 = shadow_radius_GR 1) :=
  ⟨by norm_num, kaelion_zero_reduces_to_GR 1 2 0 (by norm_num)⟩

/-- C10: `BECAnalogBlackHole` keeps the no-horizon edge case consistent:
whenever `v_flow <= c_sound` there is no horizon and both surface gravity
and Hawking temperature are `0`; whenever `v_flow > c_sound` the Hawking
temperature equals `surface_gravity / (2 pi)` and both are strictly
positive. -/
theorem bec_horizon_interface (b : BECAnalogBlackHole) :
    (b.v_flow ≤ b.c_sound →
      ¬ b.has_horizon ∧ b.surface_gravity = 0 ∧ b.hawking_temperature = 0) ∧
    (b.c_sound < b.v_flow →
      b.has_horizon ∧
      b.hawking_temperature = b.surface_gravity / (2 * Real.pi) ∧
      0 < b.surface_gravity ∧ 0 < b.hawking_temperature) := by
  constructor
  · intro hle
    have hnot : ¬ b.v_flow > b.c_sound := not_lt.mpr hle
    have hsg : b.surface_gravity = 0 := by
      rw [BECAnalogBlackHole.surface_gravity, if_neg hnot]
    refine ⟨hnot, hsg, ?_⟩
    rw [BECAnalogBlackHole.hawking_temperature, hsg, zero_div]
  · intro hlt
    have hsg : 0 < b.surface_gravity := by
      rw [BECAnalogBlackHole.surface_gravity, if_pos hlt]
      exact div_pos (sub_pos.mpr hlt) (by norm_num)
    exact ⟨hlt, rfl, hsg, div_pos hsg (by positivity)⟩

/-- Circuit interpretation of the empty list is the identity. -/
theorem evalC_nil {G : Type} [Group G] (phi : Gate → G) : evalC phi [] = 1 := rfl

/-- Interpretation of a singleton circuit. -/
theorem evalC_singleton {G : Type} [Group G] (phi : Gate → G) (g : Gate) :
    evalC phi [g] = phi g := by
  simp [evalC]

/-- Prepending a gate multiplies on the right of the interpretation
(the later gates act on the left). -/
theorem evalC_cons {G : Type} [Group G] (phi : Gate → G) (g : Gate) (l : List Gate) :
    evalC phi (g :: l) = evalC phi l * phi g := by
  simp [evalC]

/-- Sequential composition of circuits multiplies interpretations in
reverse order. -/
theorem evalC_append {G : Type} [Group G] (phi : Gate → G) (a b : List Gate) :
    evalC phi (a ++ b) = evalC phi b * evalC phi a := by
  simp [evalC]

/-- Unfolding lemma: `linv` peels one gate into a trailing inverted gate. -/
theorem linv_cons (g : Gate) (l : List Gate) :
    linv (g :: l) = linv l ++ [ginv g] := by
  simp [linv]

/-- Under a gate assignment respecting gate inverses, a qiskit-inverted
circuit interprets to the group inverse. -/
theorem evalC_linv {G : Type} [Group G] (phi : Gate → G)
    (hinv : ∀ g, phi (ginv g) = (phi g)⁻¹) (l : List Gate) :
    evalC phi (linv l) = (evalC phi l)⁻¹ := by
  induction l with
  | nil => simp [linv, evalC]
  | cons g l ih =>
      rw [linv_cons, evalC_append, evalC_singleton, hinv, ih, evalC_cons, mul_inv_rev]

/-- An element commuting with the interpretation of every gate of a
circuit commutes with the circuit's interpretation. -/
theorem commute_evalC {G : Type} [Group G] (phi : Gate → G) (x : G) (l : List Gate)
    (hx : ∀ g ∈ l, x * phi g = phi g * x) :
    x * evalC phi l = evalC phi l * x := by
  induction l with
  | nil => simp [evalC]
  | cons g l ih =>
      rw [evalC_cons, ← mul_assoc,
        ih fun g' hg' => hx g' (List.mem_cons_of_mem _ hg'),
        mul_assoc, hx g (List.mem_cons_self _ _), ← mul_assoc]

/-- For a circuit whose gate interpretations pairwise commute, inverting
each gate in place (without reversing the order) interprets to the group
inverse. -/
theorem evalC_map_ginv_of_pairwise_comm {G : Type} [Group G] (phi : Gate → G)
    (hinv : ∀ g, phi (ginv g) = (phi g)⁻¹) (l : List Gate)
    (hpair : l.Pairwise fun g g' => phi g * phi g' = phi g' * phi g) :
    evalC phi (l.map ginv) = (evalC phi l)⁻¹ := by
  induction l with
  | nil => simp [evalC]
  | cons g l ih =>
      rcases List.pairwise_cons.mp hpair with ⟨hg, hl⟩
      have hcm : phi g * evalC phi l = evalC phi l * phi g :=
        commute_evalC phi (phi g) l hg
      rw [List.map_cons, evalC_cons, hinv, ih hl, evalC_cons, mul_inv_rev]
      simpa [mul_inv_rev] using congrArg (fun y => y⁻¹) hcm

/-- Interpretation of a `for _ in range(k)` repetition of a fixed block. -/
theorem evalC_repeat {G : Type} [Group G] (phi : Gate → G) (L : List Gate) (k : ℕ) :
    evalC phi ((List.range k).flatMap fun _ => L) = evalC phi L ^ k := by
  induction k with
  | zero => simp [evalC]
  | succ k ih =>
      rw [List.range_succ, List.flatMap_append, evalC_append, ih]
      simp only [List.flatMap_cons, List.flatMap_nil, List.append_nil, pow_succ]
      exact ((Commute.refl (evalC phi L)).pow_right k).eq

/-- A circuit of the shape `U ; w ; V` with `V` interpreting to the inverse
of `U` interprets to the conjugation of `w` by `U`. -/
theorem evalC_conjugation {G : Type} [Group G] (phi : Gate → G)
    (U V : List Gate) (w : Gate)
    (hV : evalC phi V = (evalC phi U)⁻¹) :
    evalC phi (U ++ [w] ++ V) = (evalC phi U)⁻¹ * phi w * evalC phi U := by
  rw [evalC_append, evalC_append, evalC_singleton, hV]
  group

/-- The `rx` kicks of one kicked-Ising layer act on pairwise distinct
qubits, so their interpretations pairwise commute under a locality-aware
gate assignment. -/
theorem rx_list_pairwise_comm {G : Type} [Group G] (phi : Gate → G)
    (hcomm : ∀ g g', Disjoint (gateQubits g) (gateQubits g') →
      phi g * phi g' = phi g' * phi g) (n : ℕ) (theta : ℝ) :
    ((List.range n).map fun i => Gate.rx theta i).Pairwise
      fun g g' => phi g * phi g' = phi g' * phi g :=
  List.Pairwise.map _
    (fun a b hab => hcomm _ _ (by
      simpa [gateQubits] using Finset.disjoint_singleton.mpr hab))
    (List.nodup_range n)

/-- One backward kicked-Ising layer interprets to the inverse of one
forward layer: the `rzz` gates are exactly reversed and negated, and the
negated `rx` kicks, though emitted in forward order, commute pairwise. -/
theorem kicked_layer_inverse {G : Type} [Group G] (phi : Gate → G)
    (hinv : ∀ g, phi (ginv g) = (phi g)⁻¹)
    (hcomm : ∀ g g', Disjoint (gateQubits g) (gateQubits g') →
      phi g * phi g' = phi g' * phi g) (n : ℕ) (J h : ℝ) :
    evalC phi (kickedBackwardLayer n J h) =
      (evalC phi (kickedForwardLayer n J h))⁻¹ := by
  have hrx : evalC phi ((List.range n).map fun i => Gate.rx (-(2 * h)) i) =
      (evalC phi ((List.range n).map fun i => Gate.rx (2 * h) i))⁻¹ := by
    have hmap : ((List.range n).map fun i => Gate.rx (-(2 * h)) i) =
        ((List.range n).map fun i => Gate.rx (2 * h) i).map ginv := by
      simp [List.map_map, Function.comp, ginv]
    rw [hmap]
    exact evalC_map_ginv_of_pairwise_comm phi hinv _
      (rx_list_pairwise_comm phi hcomm n _)
  have hzz : (((List.range (n - 1)).reverse).map fun i =>
        Gate.rzz (-(2 * J)) i (i + 1)) =
      linv ((List.range (n - 1)).map fun i => Gate.rzz (2 * J) i (i + 1)) := by
    simp [linv, List.map_map, Function.comp, ginv, List.map_reverse]
  have hwrap : phi (Gate.rzz (-(2 * J)) (n - 1) 0) =
      (phi (Gate.rzz (2 * J) (n - 1) 0))⁻¹ := hinv (Gate.rzz (2 * J) (n - 1) 0)
  rw [kickedBackwardLayer, kickedForwardLayer, hzz]
  rw [evalC_append, evalC_append, evalC_singleton, hwrap, hrx,
    evalC_linv phi hinv, evalC_append, evalC_append, evalC_singleton]
  group

/-- The whole backward kicked-Ising evolution block interprets to the
inverse of the whole forward block. -/
theorem kicked_block_inverse {G : Type} [Group G] (phi : Gate → G)
    (hinv : ∀ g, phi (ginv g) = (phi g)⁻¹)
    (hcomm : ∀ g g', Disjoint (gateQubits g) (gateQubits g') →
      phi g * phi g' = phi g' * phi g) (n depth : ℕ) (J h : ℝ) :
    evalC phi (kickedBackwardBlock n depth J h) =
      (evalC phi (kickedForwardBlock n depth J h))⁻¹ := by
  rw [kickedBackwardBlock, kickedForwardBlock, evalC_repeat, evalC_repeat,
    kicked_layer_inverse phi hinv hcomm, inv_pow]

/-- C8: in both OTOC circuit constructors the backward-evolution block is
the exact inverse of the forward block.  `create_otoc` reseeds the RNG with
`seed + depth * 100` before rebuilding `qc_inv`, so `qc_inv` equals the
forward block gate for gate and the composed `qc_inv.inverse()` is its
exact inverse; `create_kicked_ising_otoc`'s hand-written backward block
likewise interprets to the inverse of its forward block.  Hence, under any
group interpretation of gates respecting gate inverses and locality, the
circuit between `V` and `V dagger` interprets to `U⁻¹ * W * U`. -/
theorem otoc_backward_inverse_unitary {G : Type} [Group G] (phi : Gate → G)
    (hinv : ∀ g, phi (ginv g) = (phi g)⁻¹)
    (hcomm : ∀ g g', Disjoint (gateQubits g) (gateQubits g') →
      phi g * phi g' = phi g' * phi g)
    (n depth : ℕ) (ct : CType) (seed : ℕ) (stream : ℕ → ℕ → ℝ) (J h : ℝ)
    (hn : 2 ≤ n) :
    (create_otoc n depth ct seed stream =
      [Gate.hgate 0, Gate.xgate 0] ++
        evolutionBlock n depth ct (stream (seed + depth * 100)) ++
        [Gate.zgate (n - 1)] ++
        linv (evolutionBlock n depth ct (stream (seed + depth * 100))) ++
        [Gate.xgate 0]) ∧
    evalC phi (evolutionBlock n depth ct (stream (seed + depth * 100)) ++
        [Gate.zgate (n - 1)] ++
        linv (evolutionBlock n depth ct (stream (seed + depth * 100)))) =
      (evalC phi (evolutionBlock n depth ct (stream (seed + depth * 100))))⁻¹ *
        phi (Gate.zgate (n - 1)) *
        evalC phi (evolutionBlock n depth ct (stream (seed + depth * 100))) ∧
    (create_kicked_ising_otoc n depth J h =
      [Gate.hgate 0, Gate.xgate 0] ++ kickedForwardBlock n depth J h ++
        [Gate.zgate (n - 1)] ++ kickedBackwardBlock n depth J h ++
        [Gate.xgate 0]) ∧
    evalC phi (kickedForwardBlock n depth J h ++ [Gate.zgate (n - 1)] ++
        kickedBackwardBlock n depth J h) =
      (evalC phi (kickedForwardBlock n depth J h))⁻¹ *
        phi (Gate.zgate (n - 1)) *
        evalC phi (kickedForwardBlock n depth J h) := by
  refine ⟨rfl, ?_, rfl, ?_⟩
  · exact evalC_conjugation phi _ _ _ (evalC_linv phi hinv _)
  · exact evalC_conjugation phi _ _ _
      (kicked_block_inverse phi hinv hcomm n depth J h)

/-- Witness for C8: the interpretation into `Multiplicative ℤ` sending
every gate to `1` respects inverses and locality; the theorem applies at
`n = 2`, `depth = 1`, chaotic type, seed `42`, the zero draw stream and
`J = h = 1`. -/
theorem otoc_backward_inverse_unitary_witness :
    evalC (fun _ : Gate => (1 : Multiplicative ℤ))
        (kickedForwardBlock 2 1 1 1 ++ [Gate.zgate (2 - 1)] ++
          kickedBackwardBlock 2 1 1 1) =
      (evalC (fun _ : Gate => (1 : Multiplicative ℤ)) (kickedForwardBlock 2 1 1 1))⁻¹ *
        (1 : Multiplicative ℤ) *
        evalC (fun _ : Gate => (1 : Multiplicative ℤ)) (kickedForwardBlock 2 1 1 1) :=
  (otoc_backward_inverse_unitary (fun _ => 1) (fun _ => inv_one.symm)
    (fun _ _ _ => rfl) 2 1 CType.chaotic 42 (fun _ _ => 0) 1 1
    (by norm_num)).2.2.2

/-- Interpretation of `factor - 1` identity `cx` pairs is the identity. -/
theorem evalC_cx_pairs {G : Type} [Group G] (phi : Gate → G)
    (hcx : ∀ a b, phi (Gate.cx a b) * phi (Gate.cx a b) = 1) (a b k : ℕ) :
    evalC phi ((List.range k).flatMap fun _ => [Gate.cx a b, Gate.cx a b]) = 1 := by
  rw [evalC_repeat]
  have hpair : evalC phi [Gate.cx a b, Gate.cx a b] = 1 := by
    rw [evalC_cons, evalC_singleton]; exact hcx a b
  rw [hpair, one_pow]

/-- The per-gate amplification preserves each gate's interpretation. -/
theorem amplifyGate_eval {G : Type} [Group G] (phi : Gate → G)
    (hcx : ∀ a b, phi (Gate.cx a b) * phi (Gate.cx a b) = 1)
    (factor : ℕ) (g : Gate) :
    evalC phi (amplifyGate factor g) = phi g := by
  cases g with
  | cx a b =>
      rw [amplifyGate, evalC_cons, evalC_cx_pairs phi hcx, one_mul]
  | hgate i => exact evalC_singleton phi _
  | xgate i => exact evalC_singleton phi _
  | zgate i => exact evalC_singleton phi _
  | tgate i => exact evalC_singleton phi _
  | tdgate i => exact evalC_singleton phi _
  | ugate theta phi2 lam i => exact evalC_singleton phi _
  | rx theta i => exact evalC_singleton phi _
  | rzz theta a b => exact evalC_singleton phi _

/-- C9: `amplify_noise` preserves the circuit's semantics for every noise
factor: with factor 1 the circuit is returned unchanged, and in general —
since every inserted `cx` pair composes to the identity — the amplified
circuit interprets to the same group element as the original under any
interpretation in which `cx` is an involution. -/
theorem amplify_noise_preserves_unitary {G : Type} [Group G] (phi : Gate → G)
    (hcx : ∀ a b, phi (Gate.cx a b) * phi (Gate.cx a b) = 1)
    (l : List Gate) (factor : ℕ) :
    amplify_noise l 1 = l ∧
    evalC phi (amplify_noise l factor) = evalC phi l := by
  constructor
  · simp [amplify_noise]
  · by_cases h1 : factor = 1
    · simp [amplify_noise, h1]
    · rw [amplify_noise, if_neg h1]
      induction l with
      | nil => rfl
      | cons g l ih =>
          rw [List.flatMap_cons, evalC_append, ih, evalC_cons,
            amplifyGate_eval phi hcx]

/-- Witness for C9: the trivial interpretation (in which `cx` is indeed an
involution) on the single-CNOT circuit at factor 3. -/
theorem amplify_noise_preserves_unitary_witness :
    amplify_noise [Gate.cx 0 1] 1 = [Gate.cx 0 1] ∧
    evalC (fun _ : Gate => (1 : Multiplicative ℤ)) (amplify_noise [Gate.cx 0 1] 3) =
      evalC (fun _ : Gate => (1 : Multiplicative ℤ)) [Gate.cx 0 1] :=
  amplify_noise_preserves_unitary (fun _ => 1) (fun _ _ => mul_one 1)
    [Gate.cx 0 1] 3

/-- C6 counterexample: the claim that no script writes persistent state
other than text and image files fails at code3_repeticiones, whose
`QiskitRuntimeService.save_account(..., overwrite=True)` call writes (and
overwrites) the qiskit account-credentials file on disk; the same effect
occurs in every hardware script that saves the API token. -/
theorem script_writes_counterexample :
    Effect.saveAccountFile ∈ scriptEffects Script.code3_repeticiones ∧
    persistsToDisk Effect.saveAccountFile = true ∧
    (¬ ∃ name, Effect.saveAccountFile = Effect.saveImage name) := by
  refine ⟨?_, rfl, ?_⟩
  · simp [scriptEffects]
  · rintro ⟨name, hname⟩
    exact Effect.noConfusion hname

/-- C6 amended: every effect of every script that persists state to disk
is either a `plt.savefig` image save or the qiskit account-credentials
file written by `save_account`; and the standalone analysis scripts
(experiment1, experiment2, experiment3, generate_figures, code1 and the
v3.0 stubs) never write the credentials file — their only disk writes are
the named image files such as `astro_suppression.png` and
`Experiment2_BEC.png`. -/
theorem script_persistent_writes_images_or_account :
    (∀ s : Script, ∀ e ∈ scriptEffects s, persistsToDisk e = true →
      (∃ name, e = Effect.saveImage name) ∨ e = Effect.saveAccountFile) ∧
    Effect.saveImage "astro_suppression.png" ∈
      scriptEffects Script.experiment3_astro ∧
    Effect.saveImage "Experiment2_BEC.png" ∈
      scriptEffects Script.experiment2_bec ∧
    Effect.saveImage "Experiment1_QuantumCircuits.png" ∈
      scriptEffects Script.experiment1_otoc ∧
    Effect.saveAccountFile ∉ scriptEffects Script.experiment1_otoc ∧
    Effect.saveAccountFile ∉ scriptEffects Script.experiment2_bec ∧
    Effect.saveAccountFile ∉ scriptEffects Script.experiment3_astro ∧
    Effect.saveAccountFile ∉ scriptEffects Script.generate_figures ∧
    Effect.saveAccountFile ∉ scriptEffects Script.code1_simulador_ideal := by
  refine ⟨?_, ?_, ?_, ?_, ?_, ?_, ?_, ?_, ?_⟩
  · intro s e _ hp
    cases e with
    | saveImage name => exact Or.inl ⟨name, rfl⟩
    | saveAccountFile => exact Or.inr rfl
    | printText => exact absurd hp (by simp [persistsToDisk])
    | showPlot => exact absurd hp (by simp [persistsToDisk])
    | submitCloudJob => exact absurd hp (by simp [persistsToDisk])
  · simp [scriptEffects]
  · simp [scriptEffects]
  · simp [scriptEffects]
  · simp [scriptEffects]
  · simp [scriptEffects]
  · simp [scriptEffects]
  · simp [scriptEffects]
  · simp [scriptEffects]

/-- Witness for C6 (amended) at experiment2_bec and its only disk write,
the saved `Experiment2_BEC.png` image. -/
theorem script_persistent_writes_witness :
    (∃ name, Effect.saveImage "Experiment2_BEC.png" = Effect.saveImage name) ∨
      Effect.saveImage "Experiment2_BEC.png" = Effect.saveAccountFile :=
  script_persistent_writes_images_or_account.1 Script.experiment2_bec
    (Effect.saveImage "Experiment2_BEC.png") (by simp [scriptEffects]) rfl

/-- C7 counterexample: not every script that fits data operates on locally
generated seed-fixed arrays — code5_investigar_variabilidad (and code3)
fit OTOC counts returned by the IBM cloud backend, and code1 fits counts
sampled by the Aer simulator, none of which are functions of the
hard-coded `np.random` seed alone. -/
theorem fit_data_provenance_counterexample :
    fitDataSource Script.code5_investigar_variabilidad =
      some DataSource.cloudHardware ∧
    fitDataSource Script.code5_investigar_variabilidad ≠
      some DataSource.seededLocalRNG ∧
    fitDataSource Script.code3_repeticiones = some DataSource.cloudHardware ∧
    fitDataSource Script.code1_simulador_ideal =
      some DataSource.simulatorSampling := by
  refine ⟨rfl, ?_, rfl, rfl⟩
  intro hsame
  exact DataSource.noConfusion (Option.some.inj hsame)

/-- C7 amended: the two standalone experiment scripts fit only locally
generated seed-fixed arrays, and their data-generation and fit stages are
deterministic functions of the RNG stream and seed: two runs with the
same seed produce identical fitted alpha and lambda values, and the
synthetic entropies after `np.random.seed(42)` equal the closed form
`areas/4 + (-0.5 - 0.6) * log(areas) + noise` pointwise. -/
theorem seeded_scripts_deterministic (gauss : ℕ → ℕ → ℝ)
    (fit : (ℕ → ℝ) → (ℕ → ℝ) → ℝ) (s1 s2 : ℕ) (lambda_tr : ℝ)
    (hseed : s1 = s2) :
    fitDataSource Script.experiment1_otoc = some DataSource.seededLocalRNG ∧
    fitDataSource Script.experiment2_bec = some DataSource.seededLocalRNG ∧
    bec_run gauss fit s1 = bec_run gauss fit s2 ∧
    otoc_run gauss fit s1 lambda_tr = otoc_run gauss fit s2 lambda_tr ∧
    (∀ i, bec_entropies gauss 42 i =
      linspace 5 50 10 i / 4 +
        (-0.5 - 0.6) * Real.log (linspace 5 50 10 i) + gauss 42 i) := by
  subst hseed
  exact ⟨rfl, rfl, rfl, rfl, fun i => rfl⟩

/-- Witness for C7 (amended): two runs of the experiment2 pipeline with
the same stream, fit procedure and seed 42 agree. -/
theorem seeded_scripts_deterministic_witness :
    bec_run (fun _ _ => 0) (fun _ _ => 0) 42 =
      bec_run (fun _ _ => 0) (fun _ _ => 0) 42 :=
  (seeded_scripts_deterministic (fun _ _ => 0) (fun _ _ => 0) 42 42 2.5
    rfl).2.2.1

/-- Witness for C10 at `BECAnalogBlackHole(c_sound = 1, v_flow = 1.5)`. -/
theorem bec_horizon_interface_witness :
    0 < BECAnalogBlackHole.surface_gravity ⟨1, 1.5⟩ ∧
      0 < BECAnalogBlackHole.hawking_temperature ⟨1, 1.5⟩ :=
  ⟨((bec_horizon_interface ⟨1, 1.5⟩).2 (by norm_num)).2.2.1,
   ((bec_horizon_interface ⟨1, 1.5⟩).2 (by norm_num)).2.2.2⟩

end

end Kaelion
